import Mathlib

/-!
Verification of the solve-orchestration and result-rendering layer of the
crossword GUI (`src/gui.py`, class `CrosswordApp`).

The interesting code of the layer is embedded shallowly:

* `_format_assignment` becomes the pure function `format_assignment` over an
  opaque puzzle model (only dimensions and the blocked-cell predicate are
  visible to this layer) and an opaque letter grid, exactly as the spec's
  adapter interface describes them.
* Every UI effect the worker can cause (`_set_status`, `_set_output` /
  `_clear_output`, `_notify_info`, `_notify_error`, `_enable_button`) is one
  `UIAction`.  Each of those helpers wraps the action in `root.after`, i.e.
  schedules it on the interactive thread; this is the `UIEvent.post`
  constructor.  A hypothetical direct mutation from the calling thread would
  be `UIEvent.direct`; the theorems show the worker never emits one.
* `_solve_in_thread` becomes `solve_in_thread`, a total function from the
  outcome of the adapter calls (construction + `solve()`, and `save` when
  attempted) to the list of events it issues, in issue order.  Totality of
  this function is the embedding of the worker-boundary catch: the two
  `try/except` blocks of the Python code are the `raised`, `importError` and
  `saveFailed` outcomes.
* `_solve` becomes `solveStart` (its immediate, direct effects: disabling the
  trigger button and spawning one worker thread) plus `solveStartPosts` (the
  status update it schedules through the bridge).
* The UIStateBridge contract (`root.after`) is modelled by `applyEvents`,
  which applies scheduled work on the interactive thread in the order it was
  issued.
-/

namespace CrosswordGui

/-- Modelled from the spec: the puzzle model produced by the external
adapter's constructor (`Crossword(structure_path, words_path)` lives outside
this layer).  Per the spec it is opaque to the core "beyond dimensions and
blocked-cell information": `structureGrid i j = true` embeds
`crossword.structure[i][j]` being truthy, i.e. cell `(i, j)` is open. -/
structure CrosswordModel where
  height : Nat
  width : Nat
  structureGrid : Nat → Nat → Bool

/-- Modelled from the spec: the per-cell letter source
(`creator.letter_grid(assignment)` lives outside this layer); the spec's
`renderLetters` yields a "grid of optional characters".  `none` embeds a cell
the assignment leaves without a letter (Python `None`, falsy). -/
def Letters : Type := Nat → Nat → Option Char

/-- One row of `_format_assignment`: for `j` in `range(width)`, a blocked
cell renders as the fixed `'#'`, an open cell renders its letter, with the
blank `' '` when no letter is present (`letters[i][j] or " "`). -/
def format_row (creator : CrosswordModel) (letters : Letters) (i : Nat) : String :=
  String.mk ((List.range creator.width).map fun j =>
    if creator.structureGrid i j then (letters i j).getD ' ' else '#')

/-- The `lines` list built by `_format_assignment`: one string per row `i`
in `range(height)`. -/
def format_lines (creator : CrosswordModel) (letters : Letters) : List String :=
  (List.range creator.height).map (format_row creator letters)

/-- `CrosswordApp._format_assignment`: the printable grid, rows joined by
newlines in row order. -/
def format_assignment (creator : CrosswordModel) (letters : Letters) : String :=
  String.intercalate "\n" (format_lines creator letters)

/-- The UI mutations the layer performs.  `setStatus` is `status_var.set`,
`writeOutput` is `_write_output` (clearing is `writeOutput ""`), the two
notifications are the message boxes, `enableButton` / `disableButton` are
`solve_button.config(state=...)`. -/
inductive UIAction where
  | setStatus (text : String)
  | writeOutput (text : String)
  | notifyInfo (message : String)
  | notifyError (message : String)
  | enableButton
  | disableButton
deriving DecidableEq

/-- How a UI mutation reaches the interactive thread: `post` is scheduling
through `root.after` (the UIStateBridge), `direct` would be a mutation
performed on the current thread without the bridge. -/
inductive UIEvent where
  | post (action : UIAction)
  | direct (action : UIAction)
deriving DecidableEq

/-- The interface-visible fields: the status label, the text box contents,
the Solve button's enabled flag, and the dialogs shown so far (each recorded
as `(isError, message)`). -/
structure UIState where
  statusText : String
  outputText : String
  buttonEnabled : Bool
  notices : List (Bool × String)
deriving DecidableEq

/-- Effect of one UI action on the interface-visible state. -/
def applyAction (s : UIState) : UIAction → UIState
  | .setStatus t => { s with statusText := t }
  | .writeOutput t => { s with outputText := t }
  | .notifyInfo m => { s with notices := s.notices ++ [(false, m)] }
  | .notifyError m => { s with notices := s.notices ++ [(true, m)] }
  | .enableButton => { s with buttonEnabled := true }
  | .disableButton => { s with buttonEnabled := false }

/-- The action carried by an event, whichever way it travels. -/
def eventAction : UIEvent → UIAction
  | .post a => a
  | .direct a => a

/-- `e` is scheduled through the bridge rather than applied directly. -/
def isPost : UIEvent → Bool
  | .post _ => true
  | .direct _ => false

/-- The bridge contract: the interactive thread applies the issued events
one by one, in issue order. -/
def applyEvents (s : UIState) (es : List UIEvent) : UIState :=
  es.foldl (fun st e => applyAction st (eventAction e)) s

/-- Modelled from the spec: the outcome of the worker's adapter calls.
`raised msg` embeds an exception (with text `msg`) escaping
`Crossword(...)`, `CrosswordCreator(...)` or `creator.solve()`;
`noAssignment` embeds `solve()` returning `None`; `assignment` embeds a
successful solve, carrying the model and the rendered letter grid the
formatter consumes. -/
inductive SolveResult where
  | raised (message : String)
  | noAssignment
  | assignment (creator : CrosswordModel) (letters : Letters)

/-- Modelled from the spec: the outcome of `creator.save(assignment, path)`
when it is attempted.  `importError` embeds the missing image library
(`ImportError`, the spec's capability-unavailable case), `saveFailed msg`
any other exception. -/
inductive SaveResult where
  | saved
  | importError
  | saveFailed (message : String)

/-- `CrosswordApp._solve_in_thread`, as the list of UI events it issues, in
issue order, for each outcome of the adapter calls.  Totality over
`SolveResult` and `SaveResult` embeds the worker-boundary `except` clauses:
no outcome escapes without producing a trace. -/
def solve_in_thread (result : SolveResult) (outputPath : String)
    (save : SaveResult) : List UIEvent :=
  match result with
  | .raised exc =>
      [.post (.notifyError ("Error while solving: " ++ exc)),
       .post (.setStatus "Error"),
       .post .enableButton]
  | .noAssignment =>
      [.post (.setStatus "No solution found"),
       .post (.notifyInfo "No solution could be generated for the chosen files."),
       .post (.writeOutput ""),
       .post .enableButton]
  | .assignment creator letters =>
      [.post (.writeOutput (format_assignment creator letters)),
       .post (.setStatus "Solved")]
      ++ (if outputPath = "" then []
          else
            match save with
            | .saved => [.post (.notifyInfo ("Image saved to " ++ outputPath))]
            | .importError =>
                [.post (.notifyError
                  "Pillow is required to save an image. Install it with \x27pip install pillow\x27.")]
            | .saveFailed exc =>
                [.post (.notifyError ("Could not save image: " ++ exc))])
      ++ [.post .enableButton]

/-- The application state the solve operation touches beyond the UI fields:
the number of live worker threads. -/
structure AppState where
  ui : UIState
  workers : Nat
deriving DecidableEq

/-- The immediate, synchronous effects of `CrosswordApp._solve`: it disables
the Solve button directly (`solve_button.config(state=tk.DISABLED)` runs on
the calling thread) and spawns one worker thread.  There is no check of the
current state. -/
def solveStart (s : AppState) : AppState :=
  { ui := { s.ui with buttonEnabled := false }, workers := s.workers + 1 }

/-- The event `_solve` schedules through the bridge:
`self._set_status("Solving...")`. -/
def solveStartPosts : List UIEvent :=
  [.post (.setStatus "Solving...")]

/-- Modelled from the spec: the triggering control.  A disabled Tk button
does not fire its command, so a click runs `_solve` only when the button is
enabled; this is the only guard against a second concurrent solve. -/
def buttonClick (s : AppState) : AppState :=
  if s.ui.buttonEnabled then solveStart s else s

/-- The interface state at program start: status label `"Idle"`, empty text
box, Solve button enabled, no dialogs shown. -/
def initialUI : UIState :=
  { statusText := "Idle", outputText := "", buttonEnabled := true, notices := [] }

/-- The worker-issued status values that publish a terminal state. -/
def isTerminalStatus : UIAction → Bool
  | .setStatus t => t == "Solved" || t == "No solution found" || t == "Error"
  | _ => false

/-- The action that re-enables the triggering control. -/
def isEnable : UIAction → Bool
  | .enableButton => true
  | _ => false

/-- How many events of a trace carry an action satisfying `p`. -/
def countEvents (p : UIAction → Bool) (es : List UIEvent) : Nat :=
  (es.filter fun e => p (eventAction e)).length

/-- A concrete 2×3 puzzle model used to instantiate universally quantified
theorems: the cell is open iff `i + j` is even. -/
def exampleModel : CrosswordModel :=
  { height := 2, width := 3, structureGrid := fun i j => (i + j) % 2 == 0 }

/-- A concrete letter grid: a single letter `A` at the origin. -/
def exampleLetters : Letters :=
  fun i j => if i == 0 && j == 0 then some 'A' else none

theorem getD_format_lines (creator : CrosswordModel) (letters : Letters)
    (i : Nat) (hi : i < creator.height) :
    (format_lines creator letters).getD i "" = format_row creator letters i := by
  have hlen : i < (format_lines creator letters).length := by
    simpa [format_lines] using hi
  rw [List.getD_eq_getElem _ _ hlen]
  simp [format_lines]

theorem getD_format_row_data (creator : CrosswordModel) (letters : Letters)
    (i j : Nat) (hj : j < creator.width) (d : Char) :
    (format_row creator letters i).data.getD j d =
      (if creator.structureGrid i j then (letters i j).getD ' ' else '#') := by
  have hdata : (format_row creator letters i).data =
      (List.range creator.width).map
        (fun j => if creator.structureGrid i j then (letters i j).getD ' ' else '#') := rfl
  rw [hdata]
  have hlen : j < ((List.range creator.width).map
      (fun j => if creator.structureGrid i j then (letters i j).getD ' ' else '#')).length := by
    simpa using hj
  rw [List.getD_eq_getElem _ _ hlen]
  simp

/-- C4: for every puzzle model with dimensions `(h, w)` and every assignment,
the formatted result consists of exactly `h` lines, each of length exactly
`w`, joined by newlines in row order (line `i` is row `i`, row `0` first). -/
theorem format_assignment_shape (creator : CrosswordModel) (letters : Letters) :
    (format_lines creator letters).length = creator.height ∧
    (∀ i, i < creator.height →
      ((format_lines creator letters).getD i "").length = creator.width) ∧
    (∀ i, i < creator.height →
      (format_lines creator letters).getD i "" = format_row creator letters i) ∧
    format_assignment creator letters =
      String.intercalate "\n" (format_lines creator letters) := by
  refine ⟨by simp [format_lines], ?_, ?_, rfl⟩
  · intro i hi
    rw [getD_format_lines creator letters i hi]
    show (String.mk _).length = _
    simp [String.length]
  · intro i hi
    exact getD_format_lines creator letters i hi

/-- C4 witness: the shape theorem evaluated on the concrete 2×3 model. -/
theorem format_assignment_shape_witness :
    0 < exampleModel.height ∧
    ((format_lines exampleModel exampleLetters).getD 0 "").length =
      exampleModel.width :=
  ⟨by decide, (format_assignment_shape exampleModel exampleLetters).2.1 0 (by decide)⟩

/-- C5: for every cell `(i, j)` in range, the formatted character is the
blocking `'#'` when the structure marks the cell blocked (regardless of the
letter grid), the blank `' '` when the cell is open and no letter is
assigned, and the assigned letter when the cell is open and one is. -/
theorem format_assignment_cells (creator : CrosswordModel) (letters : Letters)
    (i j : Nat) (hi : i < creator.height) (hj : j < creator.width) :
    (creator.structureGrid i j = false →
      ((format_lines creator letters).getD i "").data.getD j '!' = '#') ∧
    (creator.structureGrid i j = true → letters i j = none →
      ((format_lines creator letters).getD i "").data.getD j '!' = ' ') ∧
    (∀ c, creator.structureGrid i j = true → letters i j = some c →
      ((format_lines creator letters).getD i "").data.getD j '!' = c) := by
  rw [getD_format_lines creator letters i hi]
  rw [getD_format_row_data creator letters i j hj]
  refine ⟨fun hb => ?_, fun ho hn => ?_, fun c ho hc => ?_⟩
  · simp [hb]
  · simp [ho, hn]
  · simp [ho, hc]

/-- C5 witness: the per-cell theorem evaluated on the concrete 2×3 model, at
the open assigned cell `(0, 0)`. -/
theorem format_assignment_cells_witness :
    exampleModel.structureGrid 0 0 = true ∧
    exampleLetters 0 0 = some 'A' ∧
    ((format_lines exampleModel exampleLetters).getD 0 "").data.getD 0 '!' = 'A' :=
  ⟨by decide, by decide,
    (format_assignment_cells exampleModel exampleLetters 0 0 (by decide) (by decide)).2.2
      'A' (by decide) (by decide)⟩

/-- C9: the fixed blocking character is `'#'` and the blank placeholder for
an open cell whose letter is absent (Python-falsy, rendered by
`letters[i][j] or " "`) is the single space `' '`. -/
theorem blocking_and_blank_characters (creator : CrosswordModel)
    (letters : Letters) (i j : Nat) (hi : i < creator.height)
    (hj : j < creator.width) :
    (¬ creator.structureGrid i j = true →
      ((format_lines creator letters).getD i "").data.getD j '!' = '#') ∧
    (creator.structureGrid i j = true → letters i j = none →
      ((format_lines creator letters).getD i "").data.getD j '!' = ' ') := by
  rw [getD_format_lines creator letters i hi]
  rw [getD_format_row_data creator letters i j hj]
  refine ⟨fun hb => ?_, fun ho hn => ?_⟩
  · simp [hb]
  · simp [ho, hn]

/-- C9 witness: the character theorem evaluated on the concrete 2×3 model,
at the blocked cell `(0, 1)` and the open unassigned cell `(1, 1)`. -/
theorem blocking_and_blank_characters_witness :
    ((format_lines exampleModel exampleLetters).getD 0 "").data.getD 1 '!' = '#' ∧
    ((format_lines exampleModel exampleLetters).getD 1 "").data.getD 1 '!' = ' ' :=
  ⟨(blocking_and_blank_characters exampleModel exampleLetters 0 1 (by decide)
      (by decide)).1 (by decide),
    (blocking_and_blank_characters exampleModel exampleLetters 1 1 (by decide)
      (by decide)).2 (by decide) (by decide)⟩

/-- C2: for every outcome of the adapter calls (the worker's trace function
is total over them, which embeds the boundary `except` clauses: no raw
exception escapes the worker), the worker publishes exactly one terminal
status (`Solved`, `No solution found` or `Error`) and re-enables the
triggering control exactly once. -/
theorem worker_single_terminal_single_enable (result : SolveResult)
    (outputPath : String) (save : SaveResult) :
    countEvents isTerminalStatus (solve_in_thread result outputPath save) = 1 ∧
    countEvents isEnable (solve_in_thread result outputPath save) = 1 := by
  cases result with
  | raised exc =>
      constructor <;> simp [solve_in_thread, countEvents, eventAction,
        isTerminalStatus, isEnable]
  | noAssignment =>
      constructor <;> simp [solve_in_thread, countEvents, eventAction,
        isTerminalStatus, isEnable]
  | assignment creator letters =>
      by_cases h : outputPath = "" <;>
        cases save <;>
          constructor <;>
            simp [solve_in_thread, countEvents, eventAction, isTerminalStatus,
              isEnable, h]

/-- C6: when `solve()` yields no assignment, the worker publishes the
`No solution found` status, shows an informational (non-error) notification,
clears the rendered output, and re-enables the trigger; applied through the
bridge, any prior interface state ends with an empty text box, the
`NoSolution` status, the button enabled, and exactly one new dialog, an
informational one. -/
theorem no_solution_path (outputPath : String) (save : SaveResult)
    (s : UIState) :
    solve_in_thread .noAssignment outputPath save =
      [.post (.setStatus "No solution found"),
       .post (.notifyInfo "No solution could be generated for the chosen files."),
       .post (.writeOutput ""),
       .post .enableButton] ∧
    applyEvents s (solve_in_thread .noAssignment outputPath save) =
      { statusText := "No solution found", outputText := "",
        buttonEnabled := true,
        notices := s.notices ++
          [(false, "No solution could be generated for the chosen files.")] } := by
  constructor
  · rfl
  · rfl

/-- C10: on the `Error` terminal path the worker issues no output-writing
event, so the previously rendered text survives unchanged; only the status,
one error notification and the button enablement change.  The `NoSolution`
path, by contrast, clears the output. -/
theorem error_path_preserves_output (exc outputPath : String)
    (save : SaveResult) (s : UIState) :
    applyEvents s (solve_in_thread (.raised exc) outputPath save) =
      { statusText := "Error", outputText := s.outputText,
        buttonEnabled := true,
        notices := s.notices ++ [(true, "Error while solving: " ++ exc)] } ∧
    (∀ t, UIEvent.post (.writeOutput t) ∉
      solve_in_thread (.raised exc) outputPath save) ∧
    (applyEvents s (solve_in_thread .noAssignment outputPath save)).outputText
      = "" := by
  refine ⟨rfl, ?_, rfl⟩
  intro t ht
  simp [solve_in_thread] at ht

/-- C10 witness: the error path evaluated at a concrete prior state keeps
the rendered text. -/
theorem error_path_preserves_output_witness :
    applyEvents ⟨"Solving...", "AB", false, []⟩
      (solve_in_thread (.raised "boom") "" .saved) =
      ⟨"Error", "AB", true, [(true, "Error while solving: boom")]⟩ ∧
    UIEvent.post (.writeOutput "") ∉ solve_in_thread (.raised "boom") "" .saved :=
  ⟨(error_path_preserves_output "boom" "" .saved
      ⟨"Solving...", "AB", false, []⟩).1,
    (error_path_preserves_output "boom" "" .saved
      ⟨"Solving...", "AB", false, []⟩).2.1 ""⟩

/-- C8: every externally visible effect the worker issues travels through
the bridge (`root.after`): each event of every worker trace is a `post`,
never a `direct` mutation of interface-visible state from the worker thread;
and the bridge applies the posted actions on the interactive thread in the
order they were issued. -/
theorem worker_effects_all_posted (result : SolveResult) (outputPath : String)
    (save : SaveResult) :
    (solve_in_thread result outputPath save).all isPost = true ∧
    ∀ s, applyEvents s (solve_in_thread result outputPath save) =
      ((solve_in_thread result outputPath save).map eventAction).foldl
        applyAction s := by
  constructor
  · cases result with
    | raised exc => rfl
    | noAssignment => rfl
    | assignment creator letters =>
        by_cases h : outputPath = "" <;>
          cases save <;> simp [solve_in_thread, isPost, h]
  · intro s
    simp [applyEvents, List.foldl_map]

/-- C3: after a successful solve with a non-empty output path, a failing
`save` leaves the already-issued `Solved` status and rendered grid in place
and only adds one error notification; the missing-image-library case raises
a message distinct from the generic save-failure message. -/
theorem save_failure_is_additive (creator : CrosswordModel) (letters : Letters)
    (outputPath exc : String) (s : UIState) (h : outputPath ≠ "") :
    solve_in_thread (.assignment creator letters) outputPath .importError =
      [.post (.writeOutput (format_assignment creator letters)),
       .post (.setStatus "Solved"),
       .post (.notifyError
         "Pillow is required to save an image. Install it with \x27pip install pillow\x27."),
       .post .enableButton] ∧
    solve_in_thread (.assignment creator letters) outputPath (.saveFailed exc) =
      [.post (.writeOutput (format_assignment creator letters)),
       .post (.setStatus "Solved"),
       .post (.notifyError ("Could not save image: " ++ exc)),
       .post .enableButton] ∧
    (applyEvents s (solve_in_thread (.assignment creator letters) outputPath
        (.saveFailed exc))).statusText = "Solved" ∧
    (applyEvents s (solve_in_thread (.assignment creator letters) outputPath
        (.saveFailed exc))).outputText = format_assignment creator letters ∧
    "Pillow is required to save an image. Install it with \x27pip install pillow\x27."
      ≠ "Could not save image: " ++ exc := by
  have hie : solve_in_thread (.assignment creator letters) outputPath .importError =
      [.post (.writeOutput (format_assignment creator letters)),
       .post (.setStatus "Solved"),
       .post (.notifyError
         "Pillow is required to save an image. Install it with \x27pip install pillow\x27."),
       .post .enableButton] := by
    simp [solve_in_thread, h]
  have hsf : solve_in_thread (.assignment creator letters) outputPath
      (.saveFailed exc) =
      [.post (.writeOutput (format_assignment creator letters)),
       .post (.setStatus "Solved"),
       .post (.notifyError ("Could not save image: " ++ exc)),
       .post .enableButton] := by
    simp [solve_in_thread, h]
  refine ⟨hie, hsf, ?_, ?_, ?_⟩
  · rw [hsf]; rfl
  · rw [hsf]; rfl
  · intro heq
    have hd := congrArg (fun t => t.data.head?) heq
    simp only [String.data_append] at hd
    simp at hd

/-- C3 witness: the additive-failure theorem evaluated at a concrete output
path, prior state and exception text. -/
theorem save_failure_is_additive_witness :
    ("out.png" : String) ≠ "" ∧
    (applyEvents ⟨"Solving...", "", false, []⟩
      (solve_in_thread (.assignment exampleModel exampleLetters) "out.png"
        (.saveFailed "disk full"))).statusText = "Solved" :=
  ⟨by decide,
    (save_failure_is_additive exampleModel exampleLetters "out.png" "disk full"
      ⟨"Solving...", "", false, []⟩ (by decide)).2.2.1⟩

/-- C1 counterexample: `_solve` contains no guard on the current state.
Invoked (programmatically) while the session is already `Solving` — status
label `"Solving..."`, button disabled, one worker alive — it does spawn a
second worker thread, contradicting the claim that the invocation has no
effect. -/
theorem start_while_solving_spawns_second_worker :
    (solveStart ⟨⟨"Solving...", "", false, []⟩, 1⟩).workers ≠
      (⟨⟨"Solving...", "", false, []⟩, 1⟩ : AppState).workers ∧
    (solveStart ⟨⟨"Solving...", "", false, []⟩, 1⟩).workers = 2 := by
  constructor
  · decide
  · rfl

/-- C1 amended: during `Solving` the triggering control is disabled, and a
click on the disabled control does not run `_solve`, so no second solve can
be started through the UI; but `_solve` itself performs no state check, so a
programmatic invocation always spawns one more worker thread, whatever the
current state. -/
theorem start_guard_only_via_disabled_button (s : AppState) :
    (s.ui.buttonEnabled = false → buttonClick s = s) ∧
    (solveStart s).workers = s.workers + 1 := by
  constructor
  · intro hdis
    simp [buttonClick, hdis]
  · rfl

/-- C1 witness: the amended guard theorem evaluated at a concrete `Solving`
state with a disabled button and one live worker. -/
theorem start_guard_only_via_disabled_button_witness :
    buttonClick ⟨⟨"Solving...", "", false, []⟩, 1⟩ =
      ⟨⟨"Solving...", "", false, []⟩, 1⟩ ∧
    (solveStart ⟨⟨"Solving...", "", false, []⟩, 1⟩).workers = 1 + 1 :=
  ⟨(start_guard_only_via_disabled_button ⟨⟨"Solving...", "", false, []⟩, 1⟩).1 rfl,
    (start_guard_only_via_disabled_button ⟨⟨"Solving...", "", false, []⟩, 1⟩).2⟩

/-- C7 counterexample: the worker publishes the terminal status and the
button re-enablement as two separate bridge posts.  On the error path, once
the bridge has applied the first two of the worker's three posts (the error
notification and the terminal status) but not yet the enable post, the state
is `Error` — not `Solving` — while the triggering control is still disabled,
so "the trigger is enabled iff state ≠ Solving" fails at that reachable
point. -/
theorem terminal_state_with_disabled_trigger :
    (applyEvents ⟨"Solving...", "", false, []⟩
      ((solve_in_thread (.raised "boom") "" .saved).take 2)).statusText
      = "Error" ∧
    (applyEvents ⟨"Solving...", "", false, []⟩
      ((solve_in_thread (.raised "boom") "" .saved).take 2)).buttonEnabled
      = false := ⟨rfl, rfl⟩

/-- C7 amended: per solve attempt the state machine is as described — from
the `Idle` start state, `_solve` disables the trigger, spawns one worker and
publishes `Solving`; the worker then publishes exactly one terminal status
among `Solved`, `No solution found`, `Error` and re-enables the trigger —
and the enabled-iff-not-`Solving` equivalence holds at the quiescent points
(before `start`, once `Solving` is published, and after the worker's posts
have all been applied), though between the terminal-status post and the
final enable post the state is already terminal while the control is still
disabled. -/
theorem session_state_machine (result : SolveResult) (outputPath : String)
    (save : SaveResult) :
    initialUI.statusText = "Idle" ∧ initialUI.buttonEnabled = true ∧
    (solveStart ⟨initialUI, 0⟩).workers = 1 ∧
    (applyEvents (solveStart ⟨initialUI, 0⟩).ui solveStartPosts).statusText
      = "Solving..." ∧
    (applyEvents (solveStart ⟨initialUI, 0⟩).ui solveStartPosts).buttonEnabled
      = false ∧
    countEvents isTerminalStatus (solve_in_thread result outputPath save) = 1 ∧
    ((applyEvents (applyEvents (solveStart ⟨initialUI, 0⟩).ui solveStartPosts)
        (solve_in_thread result outputPath save)).statusText = "Solved" ∨
      (applyEvents (applyEvents (solveStart ⟨initialUI, 0⟩).ui solveStartPosts)
        (solve_in_thread result outputPath save)).statusText
        = "No solution found" ∨
      (applyEvents (applyEvents (solveStart ⟨initialUI, 0⟩).ui solveStartPosts)
        (solve_in_thread result outputPath save)).statusText = "Error") ∧
    (applyEvents (applyEvents (solveStart ⟨initialUI, 0⟩).ui solveStartPosts)
      (solve_in_thread result outputPath save)).buttonEnabled = true := by
  refine ⟨rfl, rfl, rfl, rfl, rfl, ?_, ?_, ?_⟩
  · cases result with
    | raised exc =>
        simp [solve_in_thread, countEvents, eventAction, isTerminalStatus]
    | noAssignment =>
        simp [solve_in_thread, countEvents, eventAction, isTerminalStatus]
    | assignment creator letters =>
        by_cases h : outputPath = "" <;>
          cases save <;>
            simp [solve_in_thread, countEvents, eventAction, isTerminalStatus, h]
  · cases result with
    | raised exc => right; right; rfl
    | noAssignment => right; left; rfl
    | assignment creator letters =>
        left
        by_cases h : outputPath = "" <;>
          cases save <;>
            simp [solve_in_thread, applyEvents, applyAction, eventAction, h]
  · cases result with
    | raised exc => rfl
    | noAssignment => rfl
    | assignment creator letters =>
        by_cases h : outputPath = "" <;>
          cases save <;>
            simp [solve_in_thread, applyEvents, applyAction, eventAction, h]

end CrosswordGui
